import Mathlib

/-!
Shallow embedding of the `api-books` Express + Firestore service.

The repository has three source files:
* `src/routes.ts` (the unnamed router file): five handlers over a `Books`
  collection — list, get-by-id, create, update, delete;
* `src/app.ts`: mounts the router with `app.use(router)` (no path prefix);
* `src/db/firebase/admin.ts`: the Firestore client singleton.

The document store itself is external (Firestore).  Its operations are
modelled from the spec's Database Client interface:
`get(collection, id) -> Document|NotFound`,
`query(collection, orderField, limit) -> Sequence<Document>`,
`add(collection, data) -> id`, `update(collection, id, partialData)`,
`delete(collection, id)`.

A document body is modelled as the four fields a `Book` can carry, each
optional (there is no validation, so any subset may be present, including
a client-supplied `id` field inside the body).  JavaScript object spread
`{ id: doc.id, ...doc.data() }` is modelled by `wrapDoc`: a field present
in the data wins over the one written before the spread.

Store failures are modelled by a fault oracle `fails : StoreCall → Bool`
telling which store call throws; a throw that the handler does not catch
yields `HandlerResult.uncaught`.
-/

/-- One Firestore document body.  Every field optional: the API persists
request bodies as-is, with no validation. -/
structure DocData where
  id : Option String
  name : Option String
  author : Option String
  description : Option String
deriving DecidableEq, Repr

/-- A book as serialized in responses: `{ id: doc.id, ...doc.data() }`.
The `id` field is always present in the JSON output. -/
structure BookOut where
  id : String
  name : Option String
  author : Option String
  description : Option String
deriving DecidableEq, Repr

/-- JS spread `{ id: docId, ...d }`: a key present in `d` overwrites the
`id:` entry written before the spread; the remaining fields come from `d`. -/
def wrapDoc (docId : String) (d : DocData) : BookOut :=
  { id := d.id.getD docId
    name := d.name
    author := d.author
    description := d.description }

/-- Firestore `update(newData)`: fields present in `newData` overwrite the
stored ones; absent fields are kept. -/
def mergeDoc (old new : DocData) : DocData :=
  { id := new.id <|> old.id
    name := new.name <|> old.name
    author := new.author <|> old.author
    description := new.description <|> old.description }

/-- Lookup of the document stored under a key (first match). -/
def getDocs : List (String × DocData) → String → Option DocData
  | [], _ => none
  | (k, d) :: t, i => if i = k then some d else getDocs t i

/-- Apply Firestore `update` to the entry (or entries) stored under `i`. -/
def updateDocs : List (String × DocData) → String → DocData → List (String × DocData)
  | [], _, _ => []
  | (k, d) :: t, i, nd =>
      (k, if k = i then mergeDoc d nd else d) :: updateDocs t i nd

/-- Remove every entry stored under `i`. -/
def deleteDocs : List (String × DocData) → String → List (String × DocData)
  | [], _ => []
  | (k, d) :: t, i => if k = i then deleteDocs t i else (k, d) :: deleteDocs t i

/-- Modelled from the spec: the external document store (`Books`
collection).  `docs` maps store-assigned identifiers to document bodies;
`nextId` feeds the store's id generator used by `add`. -/
structure Store where
  docs : List (String × DocData)
  nextId : Nat
deriving DecidableEq, Repr

/-- Modelled from the spec: the identifier the store assigns to the next
document created by `add`. -/
def freshId (s : Store) : String := "gen" ++ toString s.nextId

/-- Modelled from the spec: `get(collection, id) -> Document|NotFound`. -/
def Store.get (s : Store) (i : String) : Option DocData := getDocs s.docs i

/-- Modelled from the spec: `add(collection, data) -> id` — the store
assigns a fresh identifier and persists the body as-is. -/
def Store.add (s : Store) (d : DocData) : String × Store :=
  (freshId s, ⟨(freshId s, d) :: s.docs, s.nextId + 1⟩)

/-- Modelled from the spec: `update(collection, id, partialData)`. -/
def Store.update (s : Store) (i : String) (nd : DocData) : Store :=
  ⟨updateDocs s.docs i nd, s.nextId⟩

/-- Modelled from the spec: `delete(collection, id)`. -/
def Store.del (s : Store) (i : String) : Store :=
  ⟨deleteDocs s.docs i, s.nextId⟩

/-- Sort key used by `orderBy('name')`. -/
def nameKey (d : DocData) : String := d.name.getD ""

/-- Ordering relation on stored entries used by the list query. -/
def byName (a b : String × DocData) : Prop := nameKey a.2 ≤ nameKey b.2

instance : DecidableRel byName :=
  fun a b => inferInstanceAs (Decidable (nameKey a.2 ≤ nameKey b.2))

instance : IsTotal (String × DocData) byName :=
  ⟨fun a b => le_total (nameKey a.2) (nameKey b.2)⟩

instance : IsTrans (String × DocData) byName := ⟨fun _ _ _ => le_trans⟩

/-- Modelled from the spec: `query(collection, orderField, limit)` as the
handler invokes it — `orderBy('name').limit(20)`. -/
def Store.query (s : Store) : List (String × DocData) :=
  (s.docs.insertionSort byName).take 20

/-- One call a handler can issue against the store; used to address the
fault oracle. -/
inductive StoreCall where
  | get (i : String)
  | add (d : DocData)
  | update (i : String) (d : DocData)
  | del (i : String)
  | query
deriving DecidableEq

/-- A serialized JSON response body. -/
inductive Body where
  | msg (m : String)
  | book (b : BookOut)
  | books (l : List BookOut)
deriving DecidableEq, Repr

/-- An HTTP response: status code plus JSON body. -/
structure Response where
  status : Nat
  body : Body
deriving DecidableEq, Repr

/-- Outcome of running one handler: either it sent a response, or a store
failure escaped it uncaught; both record the resulting store state. -/
inductive HandlerResult where
  | responded (r : Response) (s : Store)
  | uncaught (s : Store)
deriving DecidableEq, Repr

/-- `router.get('/')`: `db.collection('Books').orderBy('name').limit(20).get()`,
wrap each doc as `{ id: doc.id, ...doc.data() }`, respond with the array.
No try/catch.  The handler never reads `req.query`; the request's query
parameters `q` are taken only to state that fact. -/
def listBooks (fails : StoreCall → Bool) (s : Store)
    (q : List (String × String)) : HandlerResult :=
  let _ := q
  if fails .query then .uncaught s
  else .responded ⟨200, .books ((s.query).map fun kv => wrapDoc kv.1 kv.2)⟩ s

/-- `router.get('/:id')`: fetch the doc; 404 `Book not found` if absent,
else 200 with `{ id: doc.id, ...doc.data() }`.  No try/catch. -/
def getBook (fails : StoreCall → Bool) (s : Store) (i : String) : HandlerResult :=
  if fails (.get i) then .uncaught s
  else match s.get i with
    | none => .responded ⟨404, .msg "Book not found"⟩ s
    | some d => .responded ⟨200, .book (wrapDoc i d)⟩ s

/-- `router.post('/')`: `add(newBook)`, respond 201 with
`{ id: docRef.id, ...newBook }`.  No try/catch. -/
def createBook (fails : StoreCall → Bool) (s : Store) (d : DocData) : HandlerResult :=
  if fails (.add d) then .uncaught s
  else .responded ⟨201, .book (wrapDoc (s.add d).1 d)⟩ (s.add d).2

/-- `router.put('/:id')`: inside try/catch — fetch, 404 if absent, else
`update(newData)` and 200 `Book updated successfully`; any store throw is
caught and answered 500 `Internal Server Error`. -/
def putBook (fails : StoreCall → Bool) (s : Store) (i : String)
    (nd : DocData) : HandlerResult :=
  if fails (.get i) then .responded ⟨500, .msg "Internal Server Error"⟩ s
  else match s.get i with
    | none => .responded ⟨404, .msg "Book not found"⟩ s
    | some _ =>
        if fails (.update i nd) then .responded ⟨500, .msg "Internal Server Error"⟩ s
        else .responded ⟨200, .msg "Book updated successfully"⟩ (s.update i nd)

/-- `router.delete('/:id')`: inside try/catch — fetch, 404 if absent, else
`delete()` and 200 `Book deleted successfully`; any store throw is caught
and answered 500 `Internal Server Error`. -/
def deleteBook (fails : StoreCall → Bool) (s : Store) (i : String) : HandlerResult :=
  if fails (.get i) then .responded ⟨500, .msg "Internal Server Error"⟩ s
  else match s.get i with
    | none => .responded ⟨404, .msg "Book not found"⟩ s
    | some _ =>
        if fails (.del i) then .responded ⟨500, .msg "Internal Server Error"⟩ s
        else .responded ⟨200, .msg "Book deleted successfully"⟩ (s.del i)

/-! Routing.  `app.ts` mounts the router with `app.use(router)` — no path
prefix — so the router's own patterns are matched against the full request
path.  A path is a list of non-empty segments; Express matches routes in
registration order. -/

/-- HTTP method of a request. -/
inductive Method where
  | get | post | put | del
deriving DecidableEq, Repr

/-- Route pattern as registered on the router: `'/'` or `'/:id'`. -/
inductive Pattern where
  | root
  | param
deriving DecidableEq, Repr

/-- Which handler a route invokes (with the captured `:id` if any). -/
inductive HandlerCall where
  | list
  | getOne (i : String)
  | create
  | updateOne (i : String)
  | deleteOne (i : String)
deriving DecidableEq, Repr

/-- Does a pattern match a segmented path, and what does `:id` capture? -/
def capture : Pattern → List String → Option String
  | .root, [] => some ""
  | .param, [x] => some x
  | _, _ => none

/-- The router's routes, in registration order (routes.ts top to bottom). -/
def routerRoutes : List (Method × Pattern × (String → HandlerCall)) :=
  [ (.get, .root, fun _ => .list)
  , (.get, .param, .getOne)
  , (.post, .root, fun _ => .create)
  , (.put, .param, .updateOne)
  , (.del, .param, .deleteOne) ]

/-- Express dispatch: first registered route whose method and pattern match. -/
def findRoute : List (Method × Pattern × (String → HandlerCall)) →
    Method → List String → Option HandlerCall
  | [], _, _ => none
  | (rm, pat, h) :: rest, m, p =>
      if rm = m then
        match capture pat p with
        | some x => some (h x)
        | none => findRoute rest m p
      else findRoute rest m p

/-- The application's dispatch: `app.use(router)` mounts the router at the
root, so the full path is matched directly against the router's patterns. -/
def appDispatch (m : Method) (p : List String) : Option HandlerCall :=
  findRoute routerRoutes m p

/-! Helper lemmas about the store operations. -/

/-- After deleting key `i`, no entry is found under `i`. -/
theorem getDocs_deleteDocs_self (l : List (String × DocData)) (i : String) :
    getDocs (deleteDocs l i) i = none := by
  induction l with
  | nil => rfl
  | cons kv t ih =>
      obtain ⟨k, d⟩ := kv
      by_cases hk : k = i
      · simp [deleteDocs, hk, ih]
      · simp [deleteDocs, hk, getDocs, Ne.symm hk, ih]

/-- After an update at key `i`, the entry found under `i` is the merge of
the previously found entry with the new data. -/
theorem getDocs_updateDocs_self (l : List (String × DocData)) (i : String)
    (nd : DocData) :
    getDocs (updateDocs l i nd) i = (getDocs l i).map (fun d => mergeDoc d nd) := by
  induction l with
  | nil => rfl
  | cons kv t ih =>
      obtain ⟨k, d⟩ := kv
      by_cases hk : i = k
      · subst hk
        simp [updateDocs, getDocs, ih]
      · simp [updateDocs, getDocs, hk, ih]

/-! Claim theorems. -/

/-- Claim C1: a PUT or DELETE whose identifier does not resolve to an
existing record (the existence fetch completes and finds nothing) responds
HTTP 404 with body `{message: "Book not found"}` and performs no mutation:
the store state after the request equals the store state before it. -/
theorem put_delete_missing_404_no_mutation (fails : StoreCall → Bool)
    (s : Store) (i : String) (nd : DocData)
    (hget : fails (.get i) = false) (habsent : s.get i = none) :
    putBook fails s i nd = .responded ⟨404, .msg "Book not found"⟩ s ∧
    deleteBook fails s i = .responded ⟨404, .msg "Book not found"⟩ s := by
  simp [putBook, deleteBook, hget, habsent]

/-- Witness for C1: on the empty store, PUT and DELETE of id `"x"` answer
404 `Book not found` and leave the store unchanged. -/
theorem put_delete_missing_404_no_mutation_witness :
    putBook (fun _ => false) ⟨[], 0⟩ "x" ⟨none, some "n", none, none⟩
        = .responded ⟨404, .msg "Book not found"⟩ ⟨[], 0⟩ ∧
    deleteBook (fun _ => false) ⟨[], 0⟩ "x"
        = .responded ⟨404, .msg "Book not found"⟩ ⟨[], 0⟩ :=
  put_delete_missing_404_no_mutation (fun _ => false) ⟨[], 0⟩ "x"
    ⟨none, some "n", none, none⟩ rfl rfl

/-- Claim C2: an unexpected store failure is caught and answered
500 `{message: "Internal Server Error"}` on the PUT and DELETE paths
(whether the fetch or the mutation throws), while on the list, get-single
and create paths it escapes the handler uncaught. -/
theorem failure_policy_asymmetry (fails : StoreCall → Bool) (s : Store)
    (i : String) (nd d0 : DocData) (q : List (String × String)) :
    (fails (.get i) = true →
      putBook fails s i nd = .responded ⟨500, .msg "Internal Server Error"⟩ s) ∧
    (fails (.get i) = false → s.get i = some d0 → fails (.update i nd) = true →
      putBook fails s i nd = .responded ⟨500, .msg "Internal Server Error"⟩ s) ∧
    (fails (.get i) = true →
      deleteBook fails s i = .responded ⟨500, .msg "Internal Server Error"⟩ s) ∧
    (fails (.get i) = false → s.get i = some d0 → fails (.del i) = true →
      deleteBook fails s i = .responded ⟨500, .msg "Internal Server Error"⟩ s) ∧
    (fails .query = true → listBooks fails s q = .uncaught s) ∧
    (fails (.get i) = true → getBook fails s i = .uncaught s) ∧
    (fails (.add nd) = true → createBook fails s nd = .uncaught s) := by
  refine ⟨fun h => ?_, fun h1 h2 h3 => ?_, fun h => ?_, fun h1 h2 h3 => ?_,
    fun h => ?_, fun h => ?_, fun h => ?_⟩
  · simp [putBook, h]
  · simp [putBook, h1, h2, h3]
  · simp [deleteBook, h]
  · simp [deleteBook, h1, h2, h3]
  · simp [listBooks, h]
  · simp [getBook, h]
  · simp [createBook, h]

/-- Witness for C2: with every store call failing, PUT and DELETE on an
existing id answer 500 while list, get-single and create fail uncaught. -/
theorem failure_policy_asymmetry_witness :
    putBook (fun _ => true) ⟨[("a", ⟨none, some "n", none, none⟩)], 1⟩ "a"
        ⟨none, some "m", none, none⟩
      = .responded ⟨500, .msg "Internal Server Error"⟩
          ⟨[("a", ⟨none, some "n", none, none⟩)], 1⟩ ∧
    deleteBook (fun _ => true) ⟨[("a", ⟨none, some "n", none, none⟩)], 1⟩ "a"
      = .responded ⟨500, .msg "Internal Server Error"⟩
          ⟨[("a", ⟨none, some "n", none, none⟩)], 1⟩ ∧
    listBooks (fun _ => true) ⟨[("a", ⟨none, some "n", none, none⟩)], 1⟩ []
      = .uncaught ⟨[("a", ⟨none, some "n", none, none⟩)], 1⟩ ∧
    getBook (fun _ => true) ⟨[("a", ⟨none, some "n", none, none⟩)], 1⟩ "a"
      = .uncaught ⟨[("a", ⟨none, some "n", none, none⟩)], 1⟩ ∧
    createBook (fun _ => true) ⟨[("a", ⟨none, some "n", none, none⟩)], 1⟩
        ⟨none, some "m", none, none⟩
      = .uncaught ⟨[("a", ⟨none, some "n", none, none⟩)], 1⟩ := by
  have h := failure_policy_asymmetry (fun _ => true)
    ⟨[("a", ⟨none, some "n", none, none⟩)], 1⟩ "a"
    ⟨none, some "m", none, none⟩ ⟨none, some "n", none, none⟩ []
  exact ⟨h.1 rfl, h.2.2.1 rfl, h.2.2.2.2.1 rfl, h.2.2.2.2.2.1 rfl,
    h.2.2.2.2.2.2 rfl⟩

/-- Claim C3: a PUT on an existing id with body `{name: "X"}` (no store
failure) answers 200 `{message: "Book updated successfully"}`, and
afterwards the record under that id has name `"X"` while its author and
description are unchanged. -/
theorem put_updates_name_frame (fails : StoreCall → Bool) (s : Store)
    (i : String) (d : DocData) (x : String)
    (hget : fails (.get i) = false)
    (hupd : fails (.update i ⟨none, some x, none, none⟩) = false)
    (hex : s.get i = some d) :
    putBook fails s i ⟨none, some x, none, none⟩
        = .responded ⟨200, .msg "Book updated successfully"⟩
            (s.update i ⟨none, some x, none, none⟩) ∧
    (s.update i ⟨none, some x, none, none⟩).get i
        = some ⟨d.id, some x, d.author, d.description⟩ := by
  constructor
  · simp [putBook, hget, hupd, hex]
  · show getDocs (updateDocs s.docs i _) i = _
    rw [getDocs_updateDocs_self]
    show (s.get i).map _ = _
    rw [hex]
    simp [mergeDoc]

/-- Witness for C3: updating the name of a concrete stored book keeps its
author and description. -/
theorem put_updates_name_frame_witness :
    putBook (fun _ => false) ⟨[("a", ⟨none, some "n", some "au", some "de"⟩)], 1⟩
        "a" ⟨none, some "X", none, none⟩
      = .responded ⟨200, .msg "Book updated successfully"⟩
          ⟨[("a", ⟨none, some "X", some "au", some "de"⟩)], 1⟩ ∧
    (Store.update ⟨[("a", ⟨none, some "n", some "au", some "de"⟩)], 1⟩ "a"
        ⟨none, some "X", none, none⟩).get "a"
      = some ⟨none, some "X", some "au", some "de"⟩ := by
  have h := put_updates_name_frame (fun _ => false)
    ⟨[("a", ⟨none, some "n", some "au", some "de"⟩)], 1⟩ "a"
    ⟨none, some "n", some "au", some "de"⟩ "X" rfl rfl rfl
  exact ⟨by rw [h.1]; rfl, h.2⟩

/-- Claim C7: a DELETE on an existing id (no store failure) answers 200
`{message: "Book deleted successfully"}`, and a subsequent GET on the same
id (no intervening create, the fetch completing) answers 404. -/
theorem delete_then_get_404 (fails fails2 : StoreCall → Bool) (s : Store)
    (i : String) (d : DocData)
    (hget : fails (.get i) = false) (hdel : fails (.del i) = false)
    (hex : s.get i = some d) (hget2 : fails2 (.get i) = false) :
    deleteBook fails s i
        = .responded ⟨200, .msg "Book deleted successfully"⟩ (s.del i) ∧
    getBook fails2 (s.del i) i
        = .responded ⟨404, .msg "Book not found"⟩ (s.del i) := by
  constructor
  · simp [deleteBook, hget, hdel, hex]
  · have hnone : (s.del i).get i = none := getDocs_deleteDocs_self s.docs i
    simp [getBook, hget2, hnone]

/-- Witness for C7: deleting a concrete stored book answers 200 and the
following GET answers 404. -/
theorem delete_then_get_404_witness :
    deleteBook (fun _ => false) ⟨[("a", ⟨none, some "n", none, none⟩)], 1⟩ "a"
      = .responded ⟨200, .msg "Book deleted successfully"⟩ ⟨[], 1⟩ ∧
    getBook (fun _ => false) ⟨[], 1⟩ "a"
      = .responded ⟨404, .msg "Book not found"⟩ ⟨[], 1⟩ := by
  have h := delete_then_get_404 (fun _ => false) (fun _ => false)
    ⟨[("a", ⟨none, some "n", none, none⟩)], 1⟩ "a"
    ⟨none, some "n", none, none⟩ rfl rfl rfl rfl
  exact ⟨by rw [h.1]; rfl, by have := h.2; rwa [show Store.del ⟨[("a", ⟨none, some "n", none, none⟩)], 1⟩ "a" = (⟨[], 1⟩ : Store) from rfl] at this⟩

/-- Helper shared by the list-endpoint claims: when the query call does not
fail, the list handler responds 200 with at most 20 books, sorted ascending
by name, each the wrapping of a stored document. -/
theorem listBooks_ok (fails : StoreCall → Bool) (s : Store)
    (q : List (String × String)) (h : fails .query = false) :
    ∃ L, listBooks fails s q = .responded ⟨200, .books L⟩ s ∧
      L.length ≤ 20 ∧
      L.Pairwise (fun a b => a.name.getD "" ≤ b.name.getD "") ∧
      ∀ b ∈ L, ∃ kv, kv ∈ s.docs ∧ b = wrapDoc kv.1 kv.2 := by
  refine ⟨(s.query).map fun kv => wrapDoc kv.1 kv.2, by simp [listBooks, h], ?_, ?_, ?_⟩
  · rw [List.length_map]
    exact List.length_take_le 20 _
  · have hs : (s.docs.insertionSort byName).Pairwise byName :=
      List.sorted_insertionSort byName s.docs
    have ht : (s.query).Pairwise byName :=
      hs.sublist (List.take_sublist 20 _)
    exact ht.map _ (fun a b hab => hab)
  · intro b hb
    obtain ⟨kv, hkv, rfl⟩ := List.mem_map.1 hb
    refine ⟨kv, ?_, rfl⟩
    have : kv ∈ s.docs.insertionSort byName :=
      (List.take_sublist 20 _).mem hkv
    exact (List.mem_insertionSort byName).1 this

/-- Claim C4: the list operation (no store failure) answers 200 with at
most 20 records sorted ascending by name, each wrapped with its
identifier; the sequence may be empty. -/
theorem list_200_sorted_capped (fails : StoreCall → Bool) (s : Store)
    (q : List (String × String)) (h : fails .query = false) :
    ∃ L, listBooks fails s q = .responded ⟨200, .books L⟩ s ∧
      L.length ≤ 20 ∧
      L.Pairwise (fun a b => a.name.getD "" ≤ b.name.getD "") ∧
      ∀ b ∈ L, ∃ kv, kv ∈ s.docs ∧ b = wrapDoc kv.1 kv.2 :=
  listBooks_ok fails s q h

/-- Witness for C4: on a concrete two-book store with out-of-order names,
the list handler answers 200 with the books sorted by name. -/
theorem list_200_sorted_capped_witness :
    ((fun _ => false) : StoreCall → Bool) .query = false ∧
    (∃ L, listBooks (fun _ => false)
          ⟨[("k2", ⟨none, some "zz", none, none⟩),
            ("k1", ⟨none, some "aa", none, none⟩)], 2⟩ []
        = .responded ⟨200, .books L⟩
            ⟨[("k2", ⟨none, some "zz", none, none⟩),
              ("k1", ⟨none, some "aa", none, none⟩)], 2⟩ ∧
      L.length ≤ 20 ∧
      L.Pairwise (fun a b => a.name.getD "" ≤ b.name.getD "") ∧
      ∀ b ∈ L, ∃ kv, kv ∈ [("k2", (⟨none, some "zz", none, none⟩ : DocData)),
          ("k1", ⟨none, some "aa", none, none⟩)] ∧ b = wrapDoc kv.1 kv.2) :=
  ⟨rfl, list_200_sorted_capped (fun _ => false)
    ⟨[("k2", ⟨none, some "zz", none, none⟩),
      ("k1", ⟨none, some "aa", none, none⟩)], 2⟩ [] rfl⟩

/-- Claim C5: the list handler never reads the request's query parameters:
two list requests against the same store differing only in request
parameters get identical responses — always ordered by name and capped at
20 (per the shared list lemma). -/
theorem list_params_not_configurable (fails : StoreCall → Bool) (s : Store)
    (q1 q2 : List (String × String)) :
    listBooks fails s q1 = listBooks fails s q2 ∧
    (fails .query = false →
      ∃ L, listBooks fails s q1 = .responded ⟨200, .books L⟩ s ∧
        L.length ≤ 20 ∧
        L.Pairwise (fun a b => a.name.getD "" ≤ b.name.getD "")) := by
  refine ⟨rfl, fun h => ?_⟩
  obtain ⟨L, h1, h2, h3, _⟩ := listBooks_ok fails s q1 h
  exact ⟨L, h1, h2, h3⟩

/-- Witness for C5: requests with `orderBy=author&limit=100` and with no
parameters at all get the same response on a concrete store. -/
theorem list_params_not_configurable_witness :
    listBooks (fun _ => false) ⟨[("k1", ⟨none, some "aa", none, none⟩)], 1⟩
        [("orderBy", "author"), ("limit", "100")]
      = listBooks (fun _ => false) ⟨[("k1", ⟨none, some "aa", none, none⟩)], 1⟩ [] ∧
    (∃ L, listBooks (fun _ => false)
          ⟨[("k1", ⟨none, some "aa", none, none⟩)], 1⟩
          [("orderBy", "author"), ("limit", "100")]
        = .responded ⟨200, .books L⟩ ⟨[("k1", ⟨none, some "aa", none, none⟩)], 1⟩ ∧
      L.length ≤ 20 ∧
      L.Pairwise (fun a b => a.name.getD "" ≤ b.name.getD "")) :=
  ⟨(list_params_not_configurable (fun _ => false)
      ⟨[("k1", ⟨none, some "aa", none, none⟩)], 1⟩
      [("orderBy", "author"), ("limit", "100")] []).1,
   (list_params_not_configurable (fun _ => false)
      ⟨[("k1", ⟨none, some "aa", none, none⟩)], 1⟩
      [("orderBy", "author"), ("limit", "100")] []).2 rfl⟩

/-- Claim C6 (evidence): `app.use(router)` mounts the router without the
`/books` prefix, so the list is served at `GET /`, a request for
`GET /books` is captured by the `/:id` route with `id = "books"`, and
`PUT /books/abc` matches no route at all — contradicting both the
interface table and the routes file's own `@route /books` doc comments. -/
theorem routes_mounted_at_root :
    appDispatch .get [] = some .list ∧
    appDispatch .get ["books"] = some (.getOne "books") ∧
    appDispatch .post [] = some .create ∧
    appDispatch .put ["books"] = some (.updateOne "books") ∧
    appDispatch .put ["books", "abc"] = none ∧
    appDispatch .del ["books", "abc"] = none :=
  ⟨rfl, rfl, rfl, rfl, rfl, rfl⟩

/-- Claim C8: a POST with `{name, author, description}` (no store failure)
answers 201 echoing the three fields verbatim together with the
store-generated id, and the record is persisted as-is. -/
theorem create_201_echoes_persists (fails : StoreCall → Bool) (s : Store)
    (a b c : String)
    (h : fails (.add ⟨none, some a, some b, some c⟩) = false) :
    createBook fails s ⟨none, some a, some b, some c⟩
      = .responded ⟨201, .book ⟨freshId s, some a, some b, some c⟩⟩
          (s.add ⟨none, some a, some b, some c⟩).2 ∧
    ((s.add ⟨none, some a, some b, some c⟩).2).get (freshId s)
      = some ⟨none, some a, some b, some c⟩ := by
  constructor
  · simp [createBook, h, Store.add, wrapDoc]
  · show getDocs _ _ = _
    simp [Store.add, getDocs]

/-- Witness for C8: creating a concrete book on the empty store. -/
theorem create_201_echoes_persists_witness :
    createBook (fun _ => false) ⟨[], 0⟩ ⟨none, some "A", some "B", some "C"⟩
      = .responded ⟨201, .book ⟨"gen0", some "A", some "B", some "C"⟩⟩
          ⟨[("gen0", ⟨none, some "A", some "B", some "C"⟩)], 1⟩ ∧
    (Store.get ⟨[("gen0", ⟨none, some "A", some "B", some "C"⟩)], 1⟩ "gen0")
      = some ⟨none, some "A", some "B", some "C"⟩ := by
  have h := create_201_echoes_persists (fun _ => false) ⟨[], 0⟩ "A" "B" "C" rfl
  exact ⟨by rw [h.1]; rfl, by decide⟩

/-- Claim C9 counterexample: POST a body that itself carries an `id` field
(`"evil"`); the store assigns `"gen0"`, but GET `/books/gen0` answers 200
with a body whose `id` is `"evil"`, not `"gen0"` — the spread
`{id: doc.id, ...doc.data()}` lets the stored `id` field shadow the
store-assigned identifier. -/
theorem get_after_create_id_mismatch :
    createBook (fun _ => false) ⟨[], 0⟩ ⟨some "evil", some "n", some "a", some "d"⟩
      = .responded ⟨201, .book ⟨"evil", some "n", some "a", some "d"⟩⟩
          ⟨[("gen0", ⟨some "evil", some "n", some "a", some "d"⟩)], 1⟩ ∧
    getBook (fun _ => false)
        ⟨[("gen0", ⟨some "evil", some "n", some "a", some "d"⟩)], 1⟩ "gen0"
      = .responded ⟨200, .book ⟨"evil", some "n", some "a", some "d"⟩⟩
          ⟨[("gen0", ⟨some "evil", some "n", some "a", some "d"⟩)], 1⟩ ∧
    "evil" ≠ "gen0" := by
  exact ⟨by decide, by decide, by decide⟩

/-- Claim C9 (amended): for an id assigned by the store to a record whose
POST body did not itself contain an `id` field, a subsequent GET on that id
(no store failure) answers 200 with a body whose `id` equals the assigned
id. -/
theorem get_after_create_returns_id (fails1 fails2 : StoreCall → Bool)
    (s : Store) (d : DocData) (hid : d.id = none)
    (h1 : fails1 (.add d) = false)
    (h2 : fails2 (.get (freshId s)) = false) :
    createBook fails1 s d
      = .responded ⟨201, .book (wrapDoc (freshId s) d)⟩ (s.add d).2 ∧
    getBook fails2 (s.add d).2 (freshId s)
      = .responded ⟨200, .book (wrapDoc (freshId s) d)⟩ (s.add d).2 ∧
    (wrapDoc (freshId s) d).id = freshId s := by
  have hget : ((s.add d).2).get (freshId s) = some d := by
    show getDocs _ _ = _
    simp [Store.add, getDocs]
  refine ⟨by simp [createBook, h1, Store.add], ?_, ?_⟩
  · simp [getBook, h2, hget]
  · simp [wrapDoc, hid]

/-- Witness for C9 (amended): a concrete POST without an `id` field then a
GET on the generated id. -/
theorem get_after_create_returns_id_witness :
    createBook (fun _ => false) ⟨[], 0⟩ ⟨none, some "n", some "a", some "d"⟩
      = .responded ⟨201, .book (wrapDoc (freshId ⟨[], 0⟩) ⟨none, some "n", some "a", some "d"⟩)⟩
          (Store.add ⟨[], 0⟩ ⟨none, some "n", some "a", some "d"⟩).2 ∧
    getBook (fun _ => false) (Store.add ⟨[], 0⟩ ⟨none, some "n", some "a", some "d"⟩).2
        (freshId ⟨[], 0⟩)
      = .responded ⟨200, .book (wrapDoc (freshId ⟨[], 0⟩) ⟨none, some "n", some "a", some "d"⟩)⟩
          (Store.add ⟨[], 0⟩ ⟨none, some "n", some "a", some "d"⟩).2 ∧
    (wrapDoc (freshId ⟨[], 0⟩) ⟨none, some "n", some "a", some "d"⟩).id
      = freshId ⟨[], 0⟩ :=
  get_after_create_returns_id (fun _ => false) (fun _ => false) ⟨[], 0⟩
    ⟨none, some "n", some "a", some "d"⟩ rfl rfl rfl

/-- Claim C10: when the POST body itself contains an `id` field, the 201
response's `id` is the client-supplied value (the body spread overwrites
the generated id), the client-supplied `id` is persisted inside the
document body, and it shadows the store-assigned identifier in the
subsequent GET response. -/
theorem client_id_shadows_store_id (fails1 fails2 : StoreCall → Bool)
    (s : Store) (d : DocData) (cid : String) (hid : d.id = some cid)
    (h1 : fails1 (.add d) = false)
    (h2 : fails2 (.get (freshId s)) = false) :
    createBook fails1 s d
      = .responded ⟨201, .book (wrapDoc (freshId s) d)⟩ (s.add d).2 ∧
    (wrapDoc (freshId s) d).id = cid ∧
    ((s.add d).2).get (freshId s) = some d ∧
    getBook fails2 (s.add d).2 (freshId s)
      = .responded ⟨200, .book (wrapDoc (freshId s) d)⟩ (s.add d).2 := by
  have hget : ((s.add d).2).get (freshId s) = some d := by
    show getDocs _ _ = _
    simp [Store.add, getDocs]
  refine ⟨by simp [createBook, h1, Store.add], ?_, hget, ?_⟩
  · simp [wrapDoc, hid]
  · simp [getBook, h2, hget]

/-- Witness for C10: a concrete POST carrying `id: "mine"`. -/
theorem client_id_shadows_store_id_witness :
    createBook (fun _ => false) ⟨[], 0⟩ ⟨some "mine", some "n", none, none⟩
      = .responded ⟨201, .book (wrapDoc (freshId ⟨[], 0⟩) ⟨some "mine", some "n", none, none⟩)⟩
          (Store.add ⟨[], 0⟩ ⟨some "mine", some "n", none, none⟩).2 ∧
    (wrapDoc (freshId ⟨[], 0⟩) ⟨some "mine", some "n", none, none⟩).id = "mine" ∧
    (Store.add ⟨[], 0⟩ ⟨some "mine", some "n", none, none⟩).2.get (freshId ⟨[], 0⟩)
      = some ⟨some "mine", some "n", none, none⟩ ∧
    getBook (fun _ => false) (Store.add ⟨[], 0⟩ ⟨some "mine", some "n", none, none⟩).2
        (freshId ⟨[], 0⟩)
      = .responded ⟨200, .book (wrapDoc (freshId ⟨[], 0⟩) ⟨some "mine", some "n", none, none⟩)⟩
          (Store.add ⟨[], 0⟩ ⟨some "mine", some "n", none, none⟩).2 :=
  client_id_shadows_store_id (fun _ => false) (fun _ => false) ⟨[], 0⟩
    ⟨some "mine", some "n", none, none⟩ "mine" rfl rfl rfl
